import Mathlib

/-!
# CalendarUSP — verification of the extraction and calendar-export logic

Shallow embedding of the CalendarUSP browser extension sources:
* `content.js` (namespace `ContentA`) — two-pass grid scraper with final deduplication;
* the `part_006` variant of the content script (namespace `ContentB`) — scraper that
  additionally reads offering dates and per-slot instructors, without deduplication;
* `popup.js` (namespace `Popup`) — first-class-date computation, deep-link generation
  and `.ics` calendar-file generation.

JavaScript `Date` objects are modelled at one-second granularity as integers counting
seconds since the local epoch (day 0 = 1970-01-01, a Thursday), in a fixed-offset
timezone (America/Sao_Paulo, UTC-3, no daylight saving since 2019).  `setHours`,
`setMinutes`, `setSeconds`, `setDate` are translated with full JavaScript rollover
semantics; `setMilliseconds(0)` is the identity at this granularity.  Calendar
components (`getFullYear`/`getMonth`/`getDate`) use the standard civil-from-days
conversion.  JavaScript `undefined` produced by out-of-range array indexing is
modelled as `Option.none`; a thrown `TypeError` is modelled with `Except.error`.
-/

namespace JsDate

/-- Day-of-week of a local-epoch-seconds instant, JS `getDay` (0 = Sunday);
1970-01-01 (day 0) was a Thursday (4). -/
def jsGetDay (t : ℤ) : ℤ := (t / 86400 + 4) % 7

/-- Civil calendar date from a day number (days since 1970-01-01).
Standard civil-from-days conversion; returns (year, month 1..12, day 1..31). -/
def civilFromDays (z : ℤ) : ℤ × ℤ × ℤ :=
  let z' := z + 719468
  let era := z' / 146097
  let doe := z' - era * 146097
  let yoe := (doe - doe / 1460 + doe / 36524 - doe / 146096) / 365
  let y := yoe + era * 400
  let doy := doe - (365 * yoe + yoe / 4 - yoe / 100)
  let mp := (5 * doy + 2) / 153
  let d := doy - (153 * mp + 2) / 5 + 1
  let m := mp + (if mp < 10 then 3 else (-9 : ℤ))
  (if m ≤ 2 then y + 1 else y, m, d)

/-- Day number (days since 1970-01-01) of a civil date; inverse of `civilFromDays`. -/
def daysFromCivil (y m d : ℤ) : ℤ :=
  let y' := if m ≤ 2 then y - 1 else y
  let era := y' / 400
  let yoe := y' - era * 400
  let mp := if m > 2 then m - 3 else m + 9
  let doy := (153 * mp + 2) / 5 + d - 1
  let doe := yoe * 365 + yoe / 4 - yoe / 100 + doy
  era * 146097 + doe - 719468

/-- JS `getFullYear` (local). -/
def jsGetFullYear (t : ℤ) : ℤ := (civilFromDays (t / 86400)).1

/-- JS `getMonth` (local, 0-based as in JavaScript). -/
def jsGetMonth (t : ℤ) : ℤ := (civilFromDays (t / 86400)).2.1 - 1

/-- JS `getDate` (local day of month, 1-based). -/
def jsGetDate (t : ℤ) : ℤ := (civilFromDays (t / 86400)).2.2

/-- JS `getHours` (local). -/
def jsGetHours (t : ℤ) : ℤ := (t % 86400) / 3600

/-- JS `getMinutes` (local). -/
def jsGetMinutes (t : ℤ) : ℤ := (t % 3600) / 60

/-- JS `getSeconds` (local). -/
def jsGetSeconds (t : ℤ) : ℤ := t % 60

/-- JS `setHours(h)` — sets the local hour, with rollover for out-of-range values. -/
def jsSetHours (h : ℤ) (t : ℤ) : ℤ := t + (h - jsGetHours t) * 3600

/-- JS `setMinutes(m)`. -/
def jsSetMinutes (m : ℤ) (t : ℤ) : ℤ := t + (m - jsGetMinutes t) * 60

/-- JS `setSeconds(s)`. -/
def jsSetSeconds (s : ℤ) (t : ℤ) : ℤ := t + (s - jsGetSeconds t)

/-- JS `setHours(h, m, s)` — sets hour, minute and second at once. -/
def jsSetHMS (h m s : ℤ) (t : ℤ) : ℤ := t + (h * 3600 + m * 60 + s - t % 86400)

/-- JS `setDate(n)` — sets the local day of month, with month rollover. -/
def jsSetDate (n : ℤ) (t : ℤ) : ℤ := t + (n - jsGetDate t) * 86400

end JsDate

namespace JsStr

/-- JS `String.prototype.trim`: strip leading and trailing whitespace. -/
def jsTrim (s : String) : String :=
  String.mk (((s.toList.dropWhile Char.isWhitespace).reverse.dropWhile
    Char.isWhitespace).reverse)

/-- Split a character list at every occurrence of `sep`. -/
def splitOnChar (sep : Char) : List Char → List (List Char)
  | [] => [[]]
  | c :: rest =>
    let r := splitOnChar sep rest
    if c = sep then [] :: r
    else
      match r with
      | h :: t => (c :: h) :: t
      | [] => [[c]]

/-- JS `String.prototype.split` with a one-character separator
(`"".split(sep)` gives `[""]`, adjacent separators give empty fields). -/
def jsSplit (s : String) (sep : Char) : List String :=
  (splitOnChar sep s.toList).map String.mk

/-- Value of a decimal digit character, `none` for non-digits. -/
def digitVal (c : Char) : Option ℕ := if c.isDigit then some (c.toNat - 48) else none

/-- Accumulate the value of a maximal leading run of decimal digits. -/
def takeDigits : List Char → ℕ → ℕ × Bool
  | [], acc => (acc, false)
  | c :: cs, acc =>
    match digitVal c with
    | some v => ((takeDigits cs (acc * 10 + v)).1, true)
    | none => (acc, false)

/-- Whether the list starts with at least one decimal digit, and the value of the
maximal digit run (ignoring anything after it, as JS `parseInt` does). -/
def leadingNat (cs : List Char) : Option ℕ :=
  match cs with
  | c :: _ =>
    match digitVal c with
    | some _ => some (takeDigits cs 0).1
    | none => none
  | [] => none

/-- JS `parseInt(s, 10)`: skip leading whitespace, optional sign, then the maximal
run of decimal digits; `none` models `NaN` (no digits at all). -/
def jsParseInt (s : String) : Option ℤ :=
  let cs := (jsTrim s).toList
  match cs with
  | '-' :: rest => (leadingNat rest).map (fun n => -(n : ℤ))
  | '+' :: rest => (leadingNat rest).map (fun n => (n : ℤ))
  | _ => (leadingNat cs).map (fun n => (n : ℤ))

/-- JS `String.prototype.padStart(2, '0')`. -/
def pad2 (n : ℤ) : String :=
  let s := toString n
  if s.length ≥ 2 then s else "0" ++ s

/-- First index of `s` in `l`, or `-1`; JS `Array.prototype.indexOf`. -/
def jsIndexOfAux : List String → String → ℤ → ℤ
  | [], _, _ => -1
  | a :: as, s, i => if a = s then i else jsIndexOfAux as s (i + 1)

/-- JS `Array.prototype.indexOf` on a string array. -/
def jsIndexOf (l : List String) (s : String) : ℤ := jsIndexOfAux l s 0

/-- JS `String.prototype.replace(/\n/g, '\\n')`: replace every newline by the
two-character sequence backslash-n. -/
def escapeNewlines (s : String) : String :=
  String.mk (s.toList.flatMap (fun c => if c = '\n' then ['\\', 'n'] else [c]))

end JsStr

namespace Popup

open JsDate JsStr

/-- popup.js `daysMap` inside `calculateFirstClassDate` (index = JS `getDay` value). -/
def daysMap : List String :=
  ["Domingo", "Segunda-feira", "Terça-feira", "Quarta-feira", "Quinta-feira",
   "Sexta-feira", "Sábado"]

/-- popup.js `getDayInitial`: canonical weekday name → two-letter iCalendar code,
`''` for any name outside the map (JS `map[day] || ''`). -/
def getDayInitial (day : String) : String :=
  if day = "Segunda-feira" then "MO"
  else if day = "Terça-feira" then "TU"
  else if day = "Quarta-feira" then "WE"
  else if day = "Quinta-feira" then "TH"
  else if day = "Sexta-feira" then "FR"
  else if day = "Sábado" then "SA"
  else if day = "Domingo" then "SU"
  else ""

/-- The `[hours, minutes]` destructuring plus the two `parseInt(·, 10)` calls of
popup.js `formatDateTimeForCalendar`; `none` models a `NaN` component (missing
`':'` part or non-numeric text). -/
def parsedTime (time : String) : Option (ℤ × ℤ) :=
  let parts := jsSplit time ':'
  match (parts.get? 0).bind jsParseInt, (parts.get? 1).bind jsParseInt with
  | some h, some m => some (h, m)
  | _, _ => none

/-- The `Date` value `d` built inside `formatDateTimeForCalendar`:
`setHours(h)`, `setMinutes(m)`, `setSeconds(0)` applied to a copy of the base date
(`setMilliseconds(0)` is the identity at one-second granularity). -/
def calApplyTime (date h m : ℤ) : ℤ :=
  jsSetSeconds 0 (jsSetMinutes m (jsSetHours h date))

/-- popup.js `formatDateTimeForCalendar(date, time)`: local calendar components of
the adjusted date rendered as `YYYYMMDDTHHMM00`.  When a time component parses to
`NaN`, every component of the invalid date renders as `"NaN"`. -/
def formatDateTimeForCalendar (date : ℤ) (time : String) : String :=
  match parsedTime time with
  | some (h, m) =>
    let d := calApplyTime date h m
    toString (jsGetFullYear d) ++ pad2 (jsGetMonth d + 1) ++ pad2 (jsGetDate d) ++
      "T" ++ pad2 (jsGetHours d) ++ pad2 (jsGetMinutes d) ++ "00"
  | none => "NaNNaNNaNTNaNNaN00"

/-- popup.js `calculateFirstClassDate`, translated instruction by instruction.
Returns the pair (final value of the `startDate` argument object, returned date):
the source copies `startDate` into fresh objects (`new Date(startDate)`) and the
only mutation (`setDate`) targets the fresh `firstClass` copy, so the argument
object is never written through. -/
def calculateFirstClassDateRun (startDate : ℤ) (targetDayName : String) : ℤ × ℤ :=
  let targetIndex := jsIndexOf daysMap targetDayName
  if targetIndex = -1 then (startDate, startDate)
  else
    let start := startDate
    let currentIndex := jsGetDay start
    let daysToAdd0 := targetIndex - currentIndex
    let daysToAdd := if daysToAdd0 < 0 then daysToAdd0 + 7 else daysToAdd0
    let firstClass := jsSetDate (jsGetDate start + daysToAdd) start
    (startDate, firstClass)

/-- popup.js `calculateFirstClassDate` (returned value). -/
def calculateFirstClassDate (startDate : ℤ) (targetDayName : String) : ℤ :=
  (calculateFirstClassDateRun startDate targetDayName).2

/-- A schedule event as consumed by popup.js (the payload received from the
content script).  `startDate`/`endDate` carry the offering dates as local-epoch
instants: the content script serializes the `Date` through `toISOString()` and
`new Date(isoString)` in the popup recovers the same instant, so the round trip
is the identity on the instant. -/
structure Event where
  title : String
  day : String
  startTime : String
  endTime : String
  location : String
  professors : String
  description : String
  startDate : Option ℤ
  endDate : Option ℤ
deriving DecidableEq, Repr

/-- Uppercase hexadecimal digit. -/
def hexDigit (n : ℕ) : Char := if n < 10 then Char.ofNat (48 + n) else Char.ofNat (55 + n)

/-- Characters `encodeURIComponent` leaves unescaped. -/
def isUnreserved (c : Char) : Bool :=
  c.isAlphanum || c = '-' || c = '_' || c = '.' || c = '!' || c = '~' || c = '*' ||
    c = '\'' || c = '(' || c = ')'

/-- UTF-8 bytes of one character. -/
def utf8Bytes (c : Char) : List ℕ :=
  let n := c.toNat
  if n < 128 then [n]
  else if n < 2048 then [192 + n / 64, 128 + n % 64]
  else if n < 65536 then [224 + n / 4096, 128 + (n / 64) % 64, 128 + n % 64]
  else [240 + n / 262144, 128 + (n / 4096) % 64, 128 + (n / 64) % 64, 128 + n % 64]

/-- Percent escape of one byte, as three characters. -/
def pctByte (b : ℕ) : List Char := ['%', hexDigit (b / 16), hexDigit (b % 16)]

/-- JS `encodeURIComponent`. -/
def encodeURIComponent (s : String) : String :=
  String.mk (s.toList.flatMap fun c =>
    if isUnreserved c then [c] else (utf8Bytes c).flatMap pctByte)

/-- The `rrule` local of popup.js `createGoogleCalendarLink` (lines 107-120):
weekly rule with `BYDAY` from `getDayInitial`, terminated by a date-bound
`UNTIL=YYYYMMDDT235959Z` when `event.endDate` is set and by `COUNT=18` otherwise. -/
def googleRrule (event : Event) : String :=
  let dayInitial := getDayInitial event.day
  let rrule0 := "FREQ=WEEKLY;BYDAY=" ++ dayInitial
  match event.endDate with
  | some endDate =>
    let endD := endDate
    rrule0 ++ ";UNTIL=" ++ toString (jsGetFullYear endD) ++ pad2 (jsGetMonth endD + 1) ++
      pad2 (jsGetDate endD) ++ "T235959Z"
  | none => rrule0 ++ ";COUNT=18"

/-- popup.js `createGoogleCalendarLink(event, firstDate)`. -/
def createGoogleCalendarLink (event : Event) (firstDate : ℤ) : String :=
  let baseUrl := "https://www.google.com/calendar/render?action=TEMPLATE"
  let title := encodeURIComponent event.title
  let details := encodeURIComponent event.description
  let location := encodeURIComponent event.location
  let startDateTime := formatDateTimeForCalendar firstDate event.startTime
  let endDateTime := formatDateTimeForCalendar firstDate event.endTime
  baseUrl ++ "&text=" ++ title ++ "&dates=" ++ startDateTime ++ "/" ++ endDateTime ++
    "&details=" ++ details ++ "&location=" ++ location ++
    "&ctz=America/Sao_Paulo&recur=RRULE:" ++ googleRrule event

/-- The fixed lines the `.ics` export pushes before the per-event entries
(popup.js lines 234-248). -/
def icsHeaderLines : List String :=
  ["BEGIN:VCALENDAR", "VERSION:2.0", "PRODID:-//CalendarUSP//ExportadorGradeHoraria//PT",
   "CALSCALE:GREGORIAN", "BEGIN:VTIMEZONE", "TZID:America/Sao_Paulo", "BEGIN:STANDARD",
   "DTSTART:19700101T000000", "TZOFFSETFROM:-0300", "TZOFFSETTO:-0300", "TZNAME:BRT",
   "END:STANDARD", "END:VTIMEZONE"]

/-- The `rrule` local of the `.ics` export handler (popup.js lines 266-284):
with an `endDate` the bound is that date moved to 23:59:59 by `setHours(23,59,59)`,
formatted from its own components; otherwise `COUNT=18`. -/
def icsRrule (event : Event) (dayInitial : String) : String :=
  let rrule0 := "RRULE:FREQ=WEEKLY;BYDAY=" ++ dayInitial
  match event.endDate with
  | some endDate =>
    let endD := jsSetHMS 23 59 59 endDate
    rrule0 ++ ";UNTIL=" ++ toString (jsGetFullYear endD) ++ pad2 (jsGetMonth endD + 1) ++
      pad2 (jsGetDate endD) ++ "T" ++ pad2 (jsGetHours endD) ++ pad2 (jsGetMinutes endD) ++
      pad2 (jsGetSeconds endD) ++ "Z"
  | none => rrule0 ++ ";COUNT=18"

/-- First class date used by the `.ics` export: the offering start when known,
otherwise the current date (`new Date()`, passed here as `now`). -/
def icsFirstClassDate (now : ℤ) (event : Event) : ℤ :=
  match event.startDate with
  | some s => calculateFirstClassDate s event.day
  | none => calculateFirstClassDate now event.day

/-- The lines one event contributes to the `.ics` file (popup.js lines 250-296):
events whose weekday has no recurrence code are skipped (`if (!dayInitial) return`). -/
def icsEventLines (now : ℤ) (event : Event) : List String :=
  let dayInitial := getDayInitial event.day
  if dayInitial = "" then []
  else
    let firstClassDate := icsFirstClassDate now event
    let dtstart := formatDateTimeForCalendar firstClassDate event.startTime
    let dtend := formatDateTimeForCalendar firstClassDate event.endTime
    ["BEGIN:VEVENT",
     "DTSTART;TZID=America/Sao_Paulo:" ++ dtstart,
     "DTEND;TZID=America/Sao_Paulo:" ++ dtend,
     icsRrule event dayInitial,
     "SUMMARY:" ++ event.title,
     "DESCRIPTION:" ++ escapeNewlines event.description,
     "LOCATION:" ++ event.location,
     "END:VEVENT"]

/-- The full line list of the generated `.ics` document. -/
def generateIcsLines (now : ℤ) (events : List Event) : List String :=
  (events.foldl (fun acc ev => acc ++ icsEventLines now ev) icsHeaderLines) ++
    ["END:VCALENDAR"]

/-- popup.js `.ics` export: `none` when there are no extracted events (the handler
returns without producing a download), else the lines joined with CRLF. -/
def generateIcs (now : ℤ) (events : List Event) : Option String :=
  if events.length = 0 then none
  else some (String.intercalate "\r\n" (generateIcsLines now events))

end Popup

namespace ContentMaps

/-- content.js `dayMap` as a lookup: abbreviation → canonical full weekday name. -/
def dayMapLookup (s : String) : Option String :=
  if s = "Seg" then some "Segunda-feira"
  else if s = "Ter" then some "Terça-feira"
  else if s = "Qua" then some "Quarta-feira"
  else if s = "Qui" then some "Quinta-feira"
  else if s = "Sex" then some "Sexta-feira"
  else if s = "Sab" then some "Sábado"
  else if s = "Dom" then some "Domingo"
  else none

/-- content.js `dayMap[abbr] || abbr`: canonical name for a known abbreviation,
the input itself otherwise (fail-open pass-through). -/
def normalizeAbbrev (s : String) : String := (dayMapLookup s).getD s

/-- The domain of `dayMap`. -/
def dayMapKeys : List String := ["Seg", "Ter", "Qua", "Qui", "Sex", "Sab", "Dom"]

/-- JS template-literal rendering of a value that may be `undefined`
(`${x}` prints `"undefined"` for an undefined value). -/
def jsTemplate (o : Option String) : String := o.getD "undefined"

end ContentMaps

namespace ContentA

open ContentMaps JsStr

/-- A `span[data-disciplina]` marker element. -/
structure Span where
  dataDisciplina : String
  innerText : String
deriving DecidableEq, Repr

/-- A `td` of a data row: its text and the optional marker span inside it. -/
structure Cell where
  innerText : String
  span : Option Span
deriving DecidableEq, Repr

/-- A `tr.jqgrow` data row. -/
structure Row where
  cells : List Cell
deriving DecidableEq, Repr

/-- A header `th`; `divText` is the text of its inner `div`, `none` when the `th`
has no `div` child (`th.querySelector('div')` is `null`). -/
structure Th where
  divText : Option String
deriving DecidableEq, Repr

/-- The `#tab_detalhes` panel contents read by content.js: the first `.nomdis`
node's text (if any) and the `.docenteResponsavel` node texts. -/
structure Panel where
  nomdis : Option String
  docentes : List String
deriving DecidableEq, Repr

/-- The page state content.js `extractSchedule` scrapes.  `panelFor code` is the
detail panel observed after clicking that course's span, `none` when the panel
never appears within the `waitForElement` timeout. -/
structure Page where
  hasTable : Bool
  hasHeader : Bool
  headerThs : List Th
  dataRows : List Row
  panelFor : String → Option Panel

/-- One grid slot as pushed in the first pass; `day` is
`daysOfWeek[i - 2]`, `undefined` (`none`) when the row has more cells than the
header has weekday columns. -/
structure Slot where
  day : Option String
  startTime : String
  endTime : String
deriving DecidableEq, Repr

/-- Insertion-ordered association list (JS `for...in` over non-numeric string
keys visits them in insertion order). -/
def lookupA {α : Type} (m : List (String × α)) (k : String) : Option α :=
  (m.find? (fun p => p.1 == k)).map Prod.snd

/-- Append a slot to the entry for `k`. -/
def pushSlot (m : List (String × List Slot)) (k : String) (s : Slot) :
    List (String × List Slot) :=
  m.map (fun p => if p.1 == k then (p.1, p.2 ++ [s]) else p)

/-- The body of the first-pass cell loop: on a marker span, create the
`disciplineSlots`/`disciplineSpans` entries on first sight of the code
(`if (!disciplineSlots[code])`) and push the slot. -/
def addCell (st : List (String × List Slot) × List (String × Span))
    (code : String) (span : Span) (slot : Slot) :
    List (String × List Slot) × List (String × Span) :=
  let st' := if (lookupA st.1 code).isNone
    then (st.1 ++ [(code, [])], st.2 ++ [(code, span)])
    else st
  (pushSlot st'.1 code slot, st'.2)

/-- The first-pass inner loop over `cells[i]` for `i ≥ 2`. -/
def processCells (daysOfWeek : List String) (startTime endTime : String) :
    List Cell → ℕ →
    List (String × List Slot) × List (String × Span) →
    List (String × List Slot) × List (String × Span)
  | [], _, st => st
  | c :: cs, i, st =>
    let st' := match c.span with
      | some sp =>
        addCell st sp.dataDisciplina sp
          { day := daysOfWeek.get? (i - 2), startTime := startTime, endTime := endTime }
      | none => st
    processCells daysOfWeek startTime endTime cs (i + 1) st'

/-- The first-pass row loop: rows with fewer than two cells are skipped
(`if (cells.length < 2) continue`). -/
def processRow (daysOfWeek : List String)
    (st : List (String × List Slot) × List (String × Span)) (row : Row) :
    List (String × List Slot) × List (String × Span) :=
  match row.cells with
  | c0 :: c1 :: rest =>
    processCells daysOfWeek (jsTrim c0.innerText) (jsTrim c1.innerText) rest 2 st
  | _ => st

/-- JS `replace(/^\d+\s*-\s*/, '')` on an instructor name. -/
def stripLeadingNumDash (s : String) : String :=
  let cs := s.toList
  let ds := cs.takeWhile Char.isDigit
  if ds.isEmpty then s
  else
    match (cs.drop ds.length).dropWhile Char.isWhitespace with
    | '-' :: rest => String.mk (rest.dropWhile Char.isWhitespace)
    | _ => s

/-- The per-course record built by the second pass (the object pushed onto
`events` at content.js lines 128-136). -/
structure EventMid where
  title : String
  fullTitle : String
  codeWithGroup : String
  professors : String
  location : String
  description : String
  schedule : List Slot
deriving DecidableEq, Repr

/-- Second pass of content.js for one `(disciplineCode, classSpan)` pair:
click, wait for `#tab_detalhes`, fall back to the bare code and the
`"Não encontrado"` placeholder when the panel never appears. -/
def enrich (page : Page) (slots : List (String × List Slot)) (p : String × Span) :
    EventMid :=
  let disciplineCode := p.1
  let classSpan := p.2
  let codeWithGroup := jsTrim classSpan.innerText
  let fullName0 := disciplineCode
  let professors0 := "Não encontrado"
  let (fullDisciplineName, professors) :=
    match page.panelFor disciplineCode with
    | some panel =>
      let fn := match panel.nomdis with
        | some nm => jsTrim nm
        | none => fullName0
      let pr := if panel.docentes.length > 0
        then String.intercalate ", " (panel.docentes.map (fun t => stripLeadingNumDash (jsTrim t)))
        else professors0
      (fn, pr)
    | none => (fullName0, professors0)
  { title := disciplineCode
    fullTitle := fullDisciplineName
    codeWithGroup := codeWithGroup
    professors := professors
    location := ""
    description := "Disciplina: " ++ codeWithGroup ++
      "\nDocente(s) Responsável(eis): " ++ professors
    schedule := (lookupA slots disciplineCode).getD [] }

/-- The flat event record pushed onto `finalEvents` (content.js lines 143-151).
The pushed object literal has no `professors` property; reading
`event.professors` on it yields `undefined`, modelled by the `professors` field
being `none`. -/
structure FinalEvent where
  title : String
  code : String
  day : Option String
  startTime : String
  endTime : String
  location : String
  description : String
  professors : Option String
deriving DecidableEq, Repr

/-- The duplicate test of content.js line 142:
`finalEvents.some(e => e.title === event.fullTitle && e.day === slot.day && e.startTime === slot.startTime)`. -/
def keyMatches (e : FinalEvent) (title : String) (day : Option String)
    (startTime : String) : Bool :=
  e.title == title && e.day == day && e.startTime == startTime

/-- Push one (event, slot) pair unless an event with the same
(title, day, startTime) key is already present. -/
def dedupPush (acc : List FinalEvent) (ev : EventMid) (slot : Slot) :
    List FinalEvent :=
  if acc.any (fun e => keyMatches e ev.fullTitle slot.day slot.startTime) then acc
  else acc ++
    [{ title := ev.fullTitle, code := ev.codeWithGroup, day := slot.day,
       startTime := slot.startTime, endTime := slot.endTime,
       location := ev.location, description := ev.description, professors := none }]

/-- The deduplicating flattening pass of content.js lines 139-154. -/
def assemble (events : List EventMid) : List FinalEvent :=
  events.foldl
    (fun acc ev => ev.schedule.foldl (fun acc2 slot => dedupPush acc2 ev slot) acc) []

/-- The `{success, data}` payload. -/
structure ExtractResult where
  success : Bool
  data : List FinalEvent
deriving DecidableEq, Repr

/-- The `daysOfWeek` computation (content.js lines 55-61): map each header `th`
after the first two through `dayMap[abbr] || abbr`.  `th.querySelector('div')`
is `null` for a `th` with no `div` child, and reading `.innerText` on it throws
a `TypeError`, modelled with `Except.error`. -/
def headerDays : List Th → Except Unit (List String)
  | [] => Except.ok []
  | th :: rest =>
    match th.divText with
    | some txt => (headerDays rest).map (fun ds => normalizeAbbrev (jsTrim txt) :: ds)
    | none => Except.error ()

/-- content.js `extractSchedule`.  Note the `daysOfWeek` computation runs before
the zero-data-rows check. -/
def extractSchedule (page : Page) : Except Unit ExtractResult :=
  if !page.hasTable || !page.hasHeader then
    Except.ok { success := false, data := [] }
  else
    match headerDays (page.headerThs.drop 2) with
    | Except.error e => Except.error e
    | Except.ok daysOfWeek =>
      if page.dataRows.length = 0 then
        Except.ok { success := false, data := [] }
      else
        let st := page.dataRows.foldl (fun st row => processRow daysOfWeek st row) ([], [])
        let events := st.2.map (fun p => enrich page st.1 p)
        Except.ok { success := true, data := assemble events }

end ContentA

namespace ContentB

open ContentMaps JsDate JsStr

/-- The fixed local-time offset of America/Sao_Paulo (UTC-3, no daylight saving). -/
def tzOffsetSeconds : ℤ := -10800

/-- Zero-padding to four characters (JS `toISOString` year field). -/
def pad4 (n : ℤ) : String :=
  let s := toString n
  if s.length ≥ 4 then s
  else String.mk (List.replicate (4 - s.length) '0') ++ s

/-- JS `Date.prototype.toISOString` at one-second granularity: the instant
converted to UTC and rendered as `YYYY-MM-DDTHH:MM:SS.000Z`. -/
def toISOString (t : ℤ) : String :=
  let u := t - tzOffsetSeconds
  let c := civilFromDays (u / 86400)
  pad4 c.1 ++ "-" ++ pad2 c.2.1 ++ "-" ++ pad2 c.2.2 ++ "T" ++
    pad2 (jsGetHours u) ++ ":" ++ pad2 (jsGetMinutes u) ++ ":" ++
    pad2 (jsGetSeconds u) ++ ".000Z"

/-- Whether a string is a non-empty run of decimal digits. -/
def allDigits (s : String) : Bool := s.length > 0 && s.toList.all Char.isDigit

/-- Numeric value of a digit string. -/
def natOfDigits (s : String) : ℕ := (takeDigits s.toList 0).1

/-- Days in a month of the proleptic Gregorian calendar. -/
def daysInMonth (y m : ℤ) : ℤ :=
  if m = 2 then (if y % 4 = 0 ∧ (y % 100 ≠ 0 ∨ y % 400 = 0) then 29 else 28)
  else if m = 4 ∨ m = 6 ∨ m = 9 ∨ m = 11 then 30
  else 31

/-- Model of `new Date("Y-M-DT00:00:00")` on the strings assembled by `parsePtDate`:
a valid calendar date yields local midnight of that day, anything else an
Invalid Date (`none`). -/
def parseLocalMidnight (ys ms ds : String) : Option ℤ :=
  if allDigits ys ∧ allDigits ms ∧ allDigits ds then
    let y : ℤ := natOfDigits ys
    let m : ℤ := natOfDigits ms
    let d : ℤ := natOfDigits ds
    if 1 ≤ m ∧ m ≤ 12 ∧ 1 ≤ d ∧ d ≤ daysInMonth y m then
      some (daysFromCivil y m d * 86400)
    else none
  else none

/-- part_006 `parsePtDate`: `null` (outer `none`) for an empty string or a string
without exactly three `/`-separated parts; otherwise a `Date` built from
`"${parts[2]}-${parts[1]}-${parts[0]}T00:00:00"`, possibly Invalid (inner `none`). -/
def parsePtDate (dateString : String) : Option (Option ℤ) :=
  if dateString = "" then none
  else
    let parts := jsSplit dateString '/'
    if parts.length = 3 then
      some (parseLocalMidnight ((parts.get? 2).getD "") ((parts.get? 1).getD "")
        ((parts.get? 0).getD ""))
    else none

/-- Model of `startDate ? startDate.toISOString() : null`: `toISOString` on an Invalid
Date throws a `RangeError`, modelled with `Except.error`. -/
def isoOrNull : Option (Option ℤ) → Except Unit (Option String)
  | none => pure none
  | some none => Except.error ()
  | some (some t) => pure (some (toISOString t))

/-- ASCII lowering (the inputs this is applied to are the page's three-letter
weekday abbreviations). -/
def jsToLower (c : Char) : Char :=
  if 'A' ≤ c ∧ c ≤ 'Z' then Char.ofNat (c.toNat + 32) else c

/-- ASCII raising, for `charAt(0).toUpperCase()`. -/
def jsToUpper (c : Char) : Char :=
  if 'a' ≤ c ∧ c ≤ 'z' then Char.ofNat (c.toNat - 32) else c

/-- part_006 `normalizeDayName`: trim, lowercase, keep the first three
characters, capitalize the first, then `dayMap[capitalized] || capitalized`. -/
def normalizeDayName (dayStr : String) : String :=
  if dayStr = "" then ""
  else
    let clean := String.mk (((jsTrim dayStr).toList.map jsToLower).take 3)
    let capitalized := match clean.toList with
      | c :: rest => String.mk (jsToUpper c :: rest)
      | [] => clean
    (dayMapLookup capitalized).getD capitalized

/-- part_006 `getTextFromSelectors`: the first candidate whose trimmed text is
non-blank, `""` when all are blank or absent. -/
def getTextFromSelectors (texts : List String) : String :=
  match texts.find? (fun t => !(jsTrim t == "")) with
  | some t => jsTrim t
  | none => ""

/-- A row of the `.horarios` sub-table of the offering tab. -/
structure HorRow where
  cols : List String
deriving DecidableEq, Repr

/-- The `#div_oferecimento` contents: candidate `.dtainitur`/`.dtafimtur` node
texts (possibly hidden blank templates) and the `.horarios tbody tr` rows. -/
structure OferDiv where
  dtainitur : List String
  dtafimtur : List String
  horarios : List HorRow
deriving DecidableEq, Repr

/-- The detail panel of the part_006 variant. -/
structure Panel where
  nomdis : Option String
  oferTabLink : Bool
  divOferecimento : Option OferDiv
deriving DecidableEq, Repr

/-- The page state the part_006 `extractSchedule` scrapes. -/
structure Page where
  hasTable : Bool
  hasHeader : Bool
  headerThs : List ContentA.Th
  dataRows : List ContentA.Row
  panelFor : String → Option Panel

/-- JS object assignment `m[k] = v`: overwrite in place or append. -/
def setAssoc (m : List (String × String)) (k v : String) : List (String × String) :=
  if (m.find? (fun p => p.1 == k)).isSome
  then m.map (fun p => if p.1 == k then (k, v) else p)
  else m ++ [(k, v)]

/-- JS property read `m[k]`. -/
def getAssoc (m : List (String × String)) (k : String) : Option String :=
  (m.find? (fun p => p.1 == k)).map Prod.snd

/-- The `specificProfMap` construction (part_006 lines 164-176): for each
`.horarios` row with at least four columns, key `"${day}-${start}"` with the
normalized day, value the instructor name. -/
def buildProfMap (rows : List HorRow) : List (String × String) :=
  rows.foldl
    (fun m row =>
      if row.cols.length ≥ 4 then
        let rawDay := (row.cols.get? 0).getD ""
        let dayFull := normalizeDayName rawDay
        let startTxt := jsTrim ((row.cols.get? 1).getD "")
        let profName := jsTrim ((row.cols.get? 3).getD "")
        setAssoc m (dayFull ++ "-" ++ startTxt) profName
      else m)
    []

/-- The flat event record pushed by the part_006 variant (lines 186-197). -/
structure FinalEvent where
  title : String
  code : String
  day : Option String
  startTime : String
  endTime : String
  location : String
  startDate : Option String
  endDate : Option String
  professors : String
  description : String
deriving DecidableEq, Repr

/-- Second pass of the part_006 variant for one course: open the detail panel,
read offering dates and the per-slot instructor table, then push one final event
per slot — with no deduplication. -/
def enrich (page : Page) (slots : List (String × List ContentA.Slot))
    (p : String × ContentA.Span) : Except Unit (List FinalEvent) := do
  let disciplineCode := p.1
  let (fullDisciplineName, startDate, endDate, specificProfMap) :=
    match page.panelFor disciplineCode with
    | some panel =>
      let fn := match panel.nomdis with
        | some nm => jsTrim nm
        | none => disciplineCode
      let (sd, ed, pm) := match panel.divOferecimento with
        | some divOfer =>
          (parsePtDate (getTextFromSelectors divOfer.dtainitur),
           parsePtDate (getTextFromSelectors divOfer.dtafimtur),
           buildProfMap divOfer.horarios)
        | none => (none, none, [])
      (fn, sd, ed, pm)
    | none => (disciplineCode, none, none, [])
  let slotList := (ContentA.lookupA slots disciplineCode).getD []
  slotList.mapM (fun slot => do
    let lookupKey := jsTemplate slot.day ++ "-" ++ slot.startTime
    let specificProf := match getAssoc specificProfMap lookupKey with
      | some v => if v = "" then "Docente não informado" else v
      | none => "Docente não informado"
    let isoStart ← isoOrNull startDate
    let isoEnd ← isoOrNull endDate
    pure
      { title := fullDisciplineName
        code := disciplineCode
        day := slot.day
        startTime := slot.startTime
        endTime := slot.endTime
        location := ""
        startDate := isoStart
        endDate := isoEnd
        professors := specificProf
        description := "Disciplina: " ++ disciplineCode ++
          "\nProfessor(a): " ++ specificProf })

/-- The `{success, data}` payload of the part_006 variant. -/
structure ExtractResult where
  success : Bool
  data : List FinalEvent
deriving DecidableEq, Repr

/-- part_006 `extractSchedule`: same preconditions and first pass as content.js,
second pass reads offering data, and the final list is pushed slot by slot with
no deduplication. -/
def extractSchedule (page : Page) : Except Unit ExtractResult :=
  if !page.hasTable || !page.hasHeader then
    Except.ok { success := false, data := [] }
  else
    match ContentA.headerDays (page.headerThs.drop 2) with
    | Except.error e => Except.error e
    | Except.ok daysOfWeek =>
      if page.dataRows.length = 0 then
        Except.ok { success := false, data := [] }
      else
        let st := page.dataRows.foldl
          (fun st row => ContentA.processRow daysOfWeek st row) ([], [])
        match st.2.mapM (fun p => enrich page st.1 p) with
        | Except.error e => Except.error e
        | Except.ok eventLists =>
          Except.ok { success := true, data := eventLists.flatten }

end ContentB

/-- Decidable equality on `Except`, for evaluating concrete extraction runs. -/
instance {ε α : Type} [DecidableEq ε] [DecidableEq α] : DecidableEq (Except ε α)
  | .error a, .error b =>
    if h : a = b then isTrue (by rw [h]) else isFalse (by intro he; cases he; exact h rfl)
  | .error _, .ok _ => isFalse (by intro h; cases h)
  | .ok _, .error _ => isFalse (by intro h; cases h)
  | .ok a, .ok b =>
    if h : a = b then isTrue (by rw [h]) else isFalse (by intro he; cases he; exact h rfl)

/-- Concrete event with a known offering-end date (1970-01-01 local midnight),
for evaluating the recurrence generators. -/
def c3Event : Popup.Event :=
  { title := "Calculo", day := "Segunda-feira", startTime := "08:00", endTime := "10:00",
    location := "", professors := "", description := "d",
    startDate := none, endDate := some 0 }

/-- The same event with no known offering-end date. -/
def c3EventNoEnd : Popup.Event :=
  { c3Event with endDate := none }

/-- Concrete event whose `day` is a raw abbreviation (the extraction's fail-open
pass-through can produce such values), so `getDayInitial` yields `""`. -/
def c7Event : Popup.Event :=
  { title := "Calculo", day := "Seg", startTime := "08:00", endTime := "10:00",
    location := "", professors := "", description := "desc",
    startDate := none, endDate := none }

/-- Number of occurrences of a line in a line list. -/
def countEq (m : String) : List String → ℕ
  | [] => 0
  | x :: xs => (if x = m then 1 else 0) + countEq m xs

/-- Concrete event skipped by the `.ics` export (`day` has no recurrence code). -/
def c6Ev1 : Popup.Event :=
  { title := "A", day := "Seg", startTime := "08:00", endTime := "10:00",
    location := "", professors := "", description := "",
    startDate := none, endDate := none }

/-- Concrete event whose scraped `endTime` precedes its `startTime`. -/
def c6Ev2 : Popup.Event :=
  { title := "B", day := "Segunda-feira", startTime := "10:00", endTime := "08:00",
    location := "", professors := "", description := "",
    startDate := some 0, endDate := none }

/-- A two-event extracted list exercising both `.ics` edge cases. -/
def c6Events : List Popup.Event := [c6Ev1, c6Ev2]

/-- Page whose table and header exist but whose third header `th` has no inner
`div`, with zero data rows. -/
def c4Page : ContentA.Page :=
  { hasTable := true, hasHeader := true,
    headerThs := [⟨some "h"⟩, ⟨some "h"⟩, ⟨none⟩],
    dataRows := [], panelFor := fun _ => none }

/-- Page with the schedule table absent. -/
def c4PageNoTable : ContentA.Page :=
  { hasTable := false, hasHeader := true,
    headerThs := [], dataRows := [], panelFor := fun _ => none }

/-- Well-formed page with zero data rows. -/
def c4PageEmptyRows : ContentA.Page :=
  { hasTable := true, hasHeader := true,
    headerThs := [⟨some "h"⟩, ⟨some "h"⟩, ⟨some "Seg"⟩],
    dataRows := [], panelFor := fun _ => none }

/-- Page (for the part_006 variant) whose grid has two rows with the same start
time "08:00" (ends 10:00 and 12:00), both carrying the MAC0110 marker in the
Monday column; the detail panel never appears. -/
def c1DupPage : ContentB.Page :=
  { hasTable := true, hasHeader := true,
    headerThs := [⟨some "h"⟩, ⟨some "h"⟩, ⟨some "Seg"⟩],
    dataRows :=
      [⟨[⟨"08:00", none⟩, ⟨"10:00", none⟩, ⟨"MAC0110", some ⟨"MAC0110", "MAC0110"⟩⟩]⟩,
       ⟨[⟨"08:00", none⟩, ⟨"12:00", none⟩, ⟨"MAC0110", some ⟨"MAC0110", "MAC0110"⟩⟩]⟩],
    panelFor := fun _ => none }

/-- First event the part_006 variant returns for `c1DupPage`. -/
def c1DupEv1 : ContentB.FinalEvent :=
  { title := "MAC0110", code := "MAC0110", day := some "Segunda-feira",
    startTime := "08:00", endTime := "10:00", location := "",
    startDate := none, endDate := none,
    professors := "Docente não informado",
    description := "Disciplina: MAC0110\nProfessor(a): Docente não informado" }

/-- Second event: same (title, day, startTime) key, different end time. -/
def c1DupEv2 : ContentB.FinalEvent :=
  { c1DupEv1 with endTime := "12:00" }

/-- Small well-formed page for evaluating the content.js extraction. -/
def c1WitPage : ContentA.Page :=
  { hasTable := true, hasHeader := true,
    headerThs := [⟨some "h"⟩, ⟨some "h"⟩, ⟨some "Seg"⟩],
    dataRows :=
      [⟨[⟨"08:00", none⟩, ⟨"10:00", none⟩, ⟨"MAC0110", some ⟨"MAC0110", "MAC0110"⟩⟩]⟩],
    panelFor := fun _ => none }

/-- The result content.js returns for `c1WitPage`. -/
def c1WitResult : ContentA.ExtractResult :=
  { success := true,
    data := [{ title := "MAC0110", code := "MAC0110", day := some "Segunda-feira",
               startTime := "08:00", endTime := "10:00", location := "",
               description := "Disciplina: MAC0110\nDocente(s) Responsável(eis): Não encontrado",
               professors := none }] }

/-- The C5 scenario page: one 08:00-10:00 row with the MAC0110 marker in both
the Monday and Wednesday columns; the detail panel never appears. -/
def c5PageA : ContentA.Page :=
  { hasTable := true, hasHeader := true,
    headerThs := [⟨some "Horário"⟩, ⟨some "Horário"⟩, ⟨some "Seg"⟩, ⟨some "Ter"⟩,
      ⟨some "Qua"⟩],
    dataRows :=
      [⟨[⟨"08:00", none⟩, ⟨"10:00", none⟩,
         ⟨"MAC0110", some ⟨"MAC0110", "MAC0110"⟩⟩,
         ⟨"", none⟩,
         ⟨"MAC0110", some ⟨"MAC0110", "MAC0110"⟩⟩]⟩],
    panelFor := fun _ => none }

/-- The same scenario page for the part_006 variant. -/
def c5PageB : ContentB.Page :=
  { hasTable := true, hasHeader := true,
    headerThs := c5PageA.headerThs, dataRows := c5PageA.dataRows,
    panelFor := fun _ => none }

/-- First scenario event of the content.js extraction (no `professors` field on
the pushed object; reading it gives `undefined`). -/
def c5EvA1 : ContentA.FinalEvent :=
  { title := "MAC0110", code := "MAC0110", day := some "Segunda-feira",
    startTime := "08:00", endTime := "10:00", location := "",
    description := "Disciplina: MAC0110\nDocente(s) Responsável(eis): Não encontrado",
    professors := none }

/-- Second scenario event of the content.js extraction (Wednesday). -/
def c5EvA2 : ContentA.FinalEvent :=
  { c5EvA1 with day := some "Quarta-feira" }

/-- First scenario event of the part_006 extraction. -/
def c5EvB1 : ContentB.FinalEvent :=
  { title := "MAC0110", code := "MAC0110", day := some "Segunda-feira",
    startTime := "08:00", endTime := "10:00", location := "",
    startDate := none, endDate := none,
    professors := "Docente não informado",
    description := "Disciplina: MAC0110\nProfessor(a): Docente não informado" }

/-- Second scenario event of the part_006 extraction (Wednesday). -/
def c5EvB2 : ContentB.FinalEvent :=
  { c5EvB1 with day := some "Quarta-feira" }

section Theorems

open JsDate JsStr Popup

/-- Helper: `jsIndexOfAux` either misses (`-1`) or hits within the list. -/
theorem jsIndexOfAux_range (l : List String) (s : String) (i : ℤ) :
    jsIndexOfAux l s i = -1 ∨
      (i ≤ jsIndexOfAux l s i ∧ jsIndexOfAux l s i < i + l.length) := by
  induction l generalizing i with
  | nil => left; rfl
  | cons a as ih =>
    simp only [jsIndexOfAux, List.length_cons]
    by_cases h : a = s
    · rw [if_pos h]
      right
      push_cast
      omega
    · rw [if_neg h]
      rcases ih (i + 1) with h1 | h1
      · left; exact h1
      · right
        push_cast
        omega

/-- Helper: the first-class-date computation adds between 0 and 6 whole days and
never touches its argument. -/
theorem calculateFirstClassDateRun_spec (t : ℤ) (name : String) :
    (calculateFirstClassDateRun t name).1 = t ∧
      ∃ k : ℤ, 0 ≤ k ∧ k ≤ 6 ∧ (calculateFirstClassDateRun t name).2 = t + k * 86400 := by
  unfold calculateFirstClassDateRun
  by_cases h : jsIndexOf daysMap name = -1
  · simp only [h, if_pos rfl]
    exact ⟨rfl, 0, by norm_num⟩
  · have hrange := jsIndexOfAux_range daysMap name 0
    have hrw : jsIndexOfAux daysMap name 0 = jsIndexOf daysMap name := rfl
    rw [hrw] at hrange
    have hlen : (daysMap.length : ℤ) = 7 := by norm_num [daysMap]
    rcases hrange with h1 | h1
    · exact absurd h1 h
    · rw [if_neg h]
      refine ⟨rfl, ?_⟩
      set ti := jsIndexOf daysMap name with hti
      have hti7 : 0 ≤ ti ∧ ti < 7 := by
        constructor
        · exact h1.1
        · have h2 := h1.2; omega
      have hcur : 0 ≤ jsGetDay t ∧ jsGetDay t < 7 := by
        unfold jsGetDay
        constructor
        · exact Int.emod_nonneg _ (by norm_num)
        · exact Int.emod_lt_of_pos _ (by norm_num)
      have hsd : jsSetDate (jsGetDate t + (if ti - jsGetDay t < 0 then ti - jsGetDay t + 7 else ti - jsGetDay t)) t
          = t + (if ti - jsGetDay t < 0 then ti - jsGetDay t + 7 else ti - jsGetDay t) * 86400 := by
        unfold jsSetDate
        ring_nf
      refine ⟨(if ti - jsGetDay t < 0 then ti - jsGetDay t + 7 else ti - jsGetDay t), ?_, ?_, hsd⟩
      · split <;> omega
      · split <;> omega

/-- Helper: full spec of `calculateFirstClassDate` for a target name whose index
in `daysMap` is `ti`. -/
theorem firstClass_case (t ti : ℤ) (name : String)
    (hval : jsIndexOf Popup.daysMap name = ti) (h0 : 0 ≤ ti) (h7 : ti < 7) :
    ∃ k : ℤ, 0 ≤ k ∧ k ≤ 6 ∧
      Popup.calculateFirstClassDate t name = t + k * 86400 ∧
      jsGetDay (t + k * 86400) = ti ∧
      (∀ j : ℤ, 0 ≤ j → j < k → jsGetDay (t + j * 86400) ≠ ti) ∧
      (jsGetDay t = ti → Popup.calculateFirstClassDate t name = t) ∧
      (jsGetDay t = 5 → ti = 1 → Popup.calculateFirstClassDate t name = t + 3 * 86400) := by
  have hne : ti ≠ -1 := by omega
  have hstep : Popup.calculateFirstClassDate t name =
      t + (if ti - jsGetDay t < 0 then ti - jsGetDay t + 7 else ti - jsGetDay t) * 86400 := by
    simp only [Popup.calculateFirstClassDate, Popup.calculateFirstClassDateRun, hval,
      if_neg hne, JsDate.jsSetDate]
    ring
  have hcdef : jsGetDay t = (t / 86400 + 4) % 7 := rfl
  have hcb : 0 ≤ jsGetDay t ∧ jsGetDay t < 7 := by
    rw [hcdef]
    exact ⟨Int.emod_nonneg _ (by norm_num), Int.emod_lt_of_pos _ (by norm_num)⟩
  have hdiv : ∀ j : ℤ, (t + j * 86400) / 86400 = t / 86400 + j :=
    fun j => Int.add_mul_ediv_right t j (by norm_num)
  refine ⟨(if ti - jsGetDay t < 0 then ti - jsGetDay t + 7 else ti - jsGetDay t),
    ?_, ?_, hstep, ?_, ?_, ?_, ?_⟩
  · split <;> omega
  · split <;> omega
  · unfold JsDate.jsGetDay at hcb ⊢
    rw [hdiv]
    set D := t / 86400 with hD
    split <;> omega
  · intro j hj0 hjk
    unfold JsDate.jsGetDay at hjk ⊢
    rw [hdiv]
    set D := t / 86400 with hD
    split at hjk <;> omega
  · intro he
    rw [hstep, he]
    have hz : (if ti - ti < 0 then ti - ti + 7 else ti - ti) = 0 := by split <;> omega
    rw [hz]
    ring
  · intro h5 h1
    rw [hstep, h5, h1]
    norm_num

/-- C2: for every anchor date and every target weekday name among the seven
canonical names, `calculateFirstClassDate` returns the first occurrence of that
weekday on or after the anchor (0-6 days later, matching day-of-week, no earlier
day matching); when the anchor's weekday already equals the target the result is
the anchor itself, and a Friday anchor with target Monday gives anchor + 3 days. -/
theorem calculateFirstClassDate_correct (t : ℤ) (name : String)
    (h : name ∈ Popup.daysMap) :
    ∃ k : ℤ, 0 ≤ k ∧ k ≤ 6 ∧
      Popup.calculateFirstClassDate t name = t + k * 86400 ∧
      jsGetDay (t + k * 86400) = jsIndexOf Popup.daysMap name ∧
      (∀ j : ℤ, 0 ≤ j → j < k → jsGetDay (t + j * 86400) ≠ jsIndexOf Popup.daysMap name) ∧
      (jsGetDay t = jsIndexOf Popup.daysMap name → Popup.calculateFirstClassDate t name = t) ∧
      (jsGetDay t = 5 → name = "Segunda-feira" →
        Popup.calculateFirstClassDate t name = t + 3 * 86400) := by
  simp only [Popup.daysMap, List.mem_cons, List.not_mem_nil, or_false] at h
  rcases h with h | h | h | h | h | h | h <;> subst h
  · obtain ⟨k, h1, h2, h3, h4, h5, h6, _⟩ := firstClass_case t 0 "Domingo" (by decide)
      (by norm_num) (by norm_num)
    exact ⟨k, h1, h2, h3, h4, h5, h6, fun _ habs => absurd habs (by decide)⟩
  · obtain ⟨k, h1, h2, h3, h4, h5, h6, h7⟩ := firstClass_case t 1 "Segunda-feira" (by decide)
      (by norm_num) (by norm_num)
    exact ⟨k, h1, h2, h3, h4, h5, h6, fun hf _ => h7 hf rfl⟩
  · obtain ⟨k, h1, h2, h3, h4, h5, h6, _⟩ := firstClass_case t 2 "Terça-feira" (by decide)
      (by norm_num) (by norm_num)
    exact ⟨k, h1, h2, h3, h4, h5, h6, fun _ habs => absurd habs (by decide)⟩
  · obtain ⟨k, h1, h2, h3, h4, h5, h6, _⟩ := firstClass_case t 3 "Quarta-feira" (by decide)
      (by norm_num) (by norm_num)
    exact ⟨k, h1, h2, h3, h4, h5, h6, fun _ habs => absurd habs (by decide)⟩
  · obtain ⟨k, h1, h2, h3, h4, h5, h6, _⟩ := firstClass_case t 4 "Quinta-feira" (by decide)
      (by norm_num) (by norm_num)
    exact ⟨k, h1, h2, h3, h4, h5, h6, fun _ habs => absurd habs (by decide)⟩
  · obtain ⟨k, h1, h2, h3, h4, h5, h6, _⟩ := firstClass_case t 5 "Sexta-feira" (by decide)
      (by norm_num) (by norm_num)
    exact ⟨k, h1, h2, h3, h4, h5, h6, fun _ habs => absurd habs (by decide)⟩
  · obtain ⟨k, h1, h2, h3, h4, h5, h6, _⟩ := firstClass_case t 6 "Sábado" (by decide)
      (by norm_num) (by norm_num)
    exact ⟨k, h1, h2, h3, h4, h5, h6, fun _ habs => absurd habs (by decide)⟩

/-- Witness for C2 at the concrete anchor 0 (a Thursday) and target Monday:
the result is 1970-01-05, four days later. -/
theorem calculateFirstClassDate_correct_witness :
    ("Segunda-feira" ∈ Popup.daysMap) ∧
    (∃ k : ℤ, 0 ≤ k ∧ k ≤ 6 ∧
      Popup.calculateFirstClassDate 0 "Segunda-feira" = 0 + k * 86400 ∧
      jsGetDay (0 + k * 86400) = jsIndexOf Popup.daysMap "Segunda-feira" ∧
      (∀ j : ℤ, 0 ≤ j → j < k →
        jsGetDay (0 + j * 86400) ≠ jsIndexOf Popup.daysMap "Segunda-feira") ∧
      (jsGetDay 0 = jsIndexOf Popup.daysMap "Segunda-feira" →
        Popup.calculateFirstClassDate 0 "Segunda-feira" = 0) ∧
      (jsGetDay 0 = 5 → "Segunda-feira" = "Segunda-feira" →
        Popup.calculateFirstClassDate 0 "Segunda-feira" = 0 + 3 * 86400)) ∧
    Popup.calculateFirstClassDate 0 "Segunda-feira" = 345600 :=
  ⟨by decide, calculateFirstClassDate_correct 0 "Segunda-feira" (by decide), by decide⟩

/-- C10: `calculateFirstClassDate` leaves its `startDate` argument object
unchanged, returns a date 0-6 whole days after the anchor, and for a
target name outside the canonical seven returns the anchor itself. -/
theorem calculateFirstClassDate_no_mutation (t : ℤ) (name : String) :
    (Popup.calculateFirstClassDateRun t name).1 = t ∧
    (∃ k : ℤ, 0 ≤ k ∧ k ≤ 6 ∧
      Popup.calculateFirstClassDate t name = t + k * 86400) ∧
    (jsIndexOf Popup.daysMap name = -1 → Popup.calculateFirstClassDate t name = t) := by
  obtain ⟨h1, k, hk0, hk6, heq⟩ := calculateFirstClassDateRun_spec t name
  refine ⟨h1, ⟨k, hk0, hk6, heq⟩, ?_⟩
  intro hidx
  simp [Popup.calculateFirstClassDate, Popup.calculateFirstClassDateRun, hidx]

/-- Witness for C10 at anchor 5 and the non-canonical name "Xyz": the argument
is untouched and the silent fallback returns the anchor. -/
theorem calculateFirstClassDate_no_mutation_witness :
    ((Popup.calculateFirstClassDateRun 5 "Xyz").1 = 5 ∧
      (∃ k : ℤ, 0 ≤ k ∧ k ≤ 6 ∧
        Popup.calculateFirstClassDate 5 "Xyz" = 5 + k * 86400) ∧
      (jsIndexOf Popup.daysMap "Xyz" = -1 → Popup.calculateFirstClassDate 5 "Xyz" = 5)) ∧
    jsIndexOf Popup.daysMap "Xyz" = -1 ∧ Popup.calculateFirstClassDate 5 "Xyz" = 5 :=
  ⟨calculateFirstClassDate_no_mutation 5 "Xyz", by decide, by decide⟩

/-- C9: the weekday normalizer maps each known abbreviation to its exact
canonical full name and passes every unknown abbreviation through unchanged. -/
theorem normalizeAbbrev_correct :
    ContentMaps.normalizeAbbrev "Seg" = "Segunda-feira" ∧
    ContentMaps.normalizeAbbrev "Ter" = "Terça-feira" ∧
    ContentMaps.normalizeAbbrev "Qua" = "Quarta-feira" ∧
    ContentMaps.normalizeAbbrev "Qui" = "Quinta-feira" ∧
    ContentMaps.normalizeAbbrev "Sex" = "Sexta-feira" ∧
    ContentMaps.normalizeAbbrev "Sab" = "Sábado" ∧
    ContentMaps.normalizeAbbrev "Dom" = "Domingo" ∧
    ∀ s : String, s ∉ ContentMaps.dayMapKeys → ContentMaps.normalizeAbbrev s = s := by
  refine ⟨by decide, by decide, by decide, by decide, by decide, by decide, by decide, ?_⟩
  intro s hs
  simp only [ContentMaps.dayMapKeys, List.mem_cons, List.not_mem_nil, or_false,
    not_or] at hs
  obtain ⟨h1, h2, h3, h4, h5, h6, h7⟩ := hs
  simp [ContentMaps.normalizeAbbrev, ContentMaps.dayMapLookup, h1, h2, h3, h4, h5, h6, h7]

/-- Witness for C9: an unknown abbreviation passes through unchanged. -/
theorem normalizeAbbrev_correct_witness :
    ContentMaps.normalizeAbbrev "Seg" = "Segunda-feira" ∧
    ("Xyz" ∉ ContentMaps.dayMapKeys) ∧ ContentMaps.normalizeAbbrev "Xyz" = "Xyz" :=
  ⟨normalizeAbbrev_correct.1, by decide,
    normalizeAbbrev_correct.2.2.2.2.2.2.2 "Xyz" (by decide)⟩

/-- Helper: explicit value of the instant built by `formatDateTimeForCalendar`
(the rollover semantics of `setHours`/`setMinutes` make this hold for all
hour/minute values). -/
theorem calApplyTime_eval (date h m : ℤ) :
    Popup.calApplyTime date h m = (date / 86400) * 86400 + h * 3600 + m * 60 := by
  unfold Popup.calApplyTime JsDate.jsSetSeconds JsDate.jsSetMinutes JsDate.jsSetHours
    JsDate.jsGetSeconds JsDate.jsGetMinutes JsDate.jsGetHours
  omega

/-- C8: for a valid `"HH:MM"` time, the calendar-file timestamp formatter renders
the base date's own local calendar components followed by exactly the parsed hour
and minute (no UTC conversion shifts the wall-clock time): the built instant stays
on the base date's local day and its hour/minute are the parsed values. -/
theorem formatDateTimeForCalendar_local (date h m : ℤ) (time : String)
    (hp : Popup.parsedTime time = some (h, m))
    (hh0 : 0 ≤ h) (hh : h ≤ 23) (hm0 : 0 ≤ m) (hm : m ≤ 59) :
    Popup.formatDateTimeForCalendar date time =
      toString (jsGetFullYear date) ++ pad2 (jsGetMonth date + 1) ++
        pad2 (jsGetDate date) ++ "T" ++ pad2 h ++ pad2 m ++ "00" ∧
    Popup.calApplyTime date h m / 86400 = date / 86400 ∧
    jsGetHours (Popup.calApplyTime date h m) = h ∧
    jsGetMinutes (Popup.calApplyTime date h m) = m ∧
    jsGetSeconds (Popup.calApplyTime date h m) = 0 := by
  have heval := calApplyTime_eval date h m
  have hday : Popup.calApplyTime date h m / 86400 = date / 86400 := by
    rw [heval]; omega
  have hhr : jsGetHours (Popup.calApplyTime date h m) = h := by
    rw [heval]; unfold JsDate.jsGetHours; omega
  have hmin : jsGetMinutes (Popup.calApplyTime date h m) = m := by
    rw [heval]; unfold JsDate.jsGetMinutes; omega
  have hsec : jsGetSeconds (Popup.calApplyTime date h m) = 0 := by
    rw [heval]; unfold JsDate.jsGetSeconds; omega
  have hyr : jsGetFullYear (Popup.calApplyTime date h m) = jsGetFullYear date := by
    unfold JsDate.jsGetFullYear; rw [hday]
  have hmo : jsGetMonth (Popup.calApplyTime date h m) = jsGetMonth date := by
    unfold JsDate.jsGetMonth; rw [hday]
  have hda : jsGetDate (Popup.calApplyTime date h m) = jsGetDate date := by
    unfold JsDate.jsGetDate; rw [hday]
  refine ⟨?_, hday, hhr, hmin, hsec⟩
  unfold Popup.formatDateTimeForCalendar
  rw [hp]
  dsimp only
  rw [hyr, hmo, hda, hhr, hmin]

/-- Witness for C8 at base date 0 and time "08:30". -/
theorem formatDateTimeForCalendar_local_witness :
    Popup.parsedTime "08:30" = some (8, 30) ∧
    (Popup.formatDateTimeForCalendar 0 "08:30" =
        toString (jsGetFullYear 0) ++ pad2 (jsGetMonth 0 + 1) ++
          pad2 (jsGetDate 0) ++ "T" ++ pad2 8 ++ pad2 30 ++ "00" ∧
      Popup.calApplyTime 0 8 30 / 86400 = 0 / 86400 ∧
      jsGetHours (Popup.calApplyTime 0 8 30) = 8 ∧
      jsGetMinutes (Popup.calApplyTime 0 8 30) = 30 ∧
      jsGetSeconds (Popup.calApplyTime 0 8 30) = 0) ∧
    Popup.formatDateTimeForCalendar 0 "08:30" = "19700101T083000" :=
  ⟨by decide,
   formatDateTimeForCalendar_local 0 8 30 "08:30" (by decide) (by decide) (by decide)
     (by decide) (by decide),
   by decide⟩

/-- Helper: `setHours(23,59,59)` lands at second 86399 of the same local day. -/
theorem jsSetHMS_endOfDay (e : ℤ) :
    JsDate.jsSetHMS 23 59 59 e = (e / 86400) * 86400 + 86399 := by
  unfold JsDate.jsSetHMS
  omega

/-- Helper: the end-of-day bound does not precede the end date instant and stays
on the same local day. -/
theorem endOfDay_bound (e : ℤ) :
    e ≤ JsDate.jsSetHMS 23 59 59 e ∧ JsDate.jsSetHMS 23 59 59 e / 86400 = e / 86400 := by
  rw [jsSetHMS_endOfDay]
  constructor <;> omega

/-- Helper: folding the literal time-of-day pieces of the `.ics` `UNTIL` clause. -/
theorem untilTail_fold (p : String) :
    p ++ "T" ++ "23" ++ "59" ++ "59" ++ "Z" = p ++ "T235959Z" := by
  simp only [String.append_assoc]
  congr 1

/-- C3: both recurrence generators terminate the weekly rule with a date-bounded
`UNTIL` at the end date's local day, 23:59:59 (a bound on or after the end date)
when an offering-end date is known, and with `COUNT=18` otherwise; the Google
deep-link embeds its rule and the `.ics` entry embeds its rule. -/
theorem recurrence_termination (ev : Popup.Event) :
    (∀ e : ℤ, ev.endDate = some e →
      Popup.googleRrule ev = "FREQ=WEEKLY;BYDAY=" ++ Popup.getDayInitial ev.day ++
        ";UNTIL=" ++ toString (jsGetFullYear e) ++ pad2 (jsGetMonth e + 1) ++
        pad2 (jsGetDate e) ++ "T235959Z" ∧
      Popup.icsRrule ev (Popup.getDayInitial ev.day) =
        "RRULE:FREQ=WEEKLY;BYDAY=" ++ Popup.getDayInitial ev.day ++
        ";UNTIL=" ++ toString (jsGetFullYear e) ++ pad2 (jsGetMonth e + 1) ++
        pad2 (jsGetDate e) ++ "T235959Z" ∧
      e ≤ JsDate.jsSetHMS 23 59 59 e ∧
      JsDate.jsSetHMS 23 59 59 e / 86400 = e / 86400) ∧
    (ev.endDate = none →
      Popup.googleRrule ev =
        "FREQ=WEEKLY;BYDAY=" ++ Popup.getDayInitial ev.day ++ ";COUNT=18" ∧
      Popup.icsRrule ev (Popup.getDayInitial ev.day) =
        "RRULE:FREQ=WEEKLY;BYDAY=" ++ Popup.getDayInitial ev.day ++ ";COUNT=18") ∧
    (∀ fd : ℤ, ∃ p : String, Popup.createGoogleCalendarLink ev fd =
      p ++ "&ctz=America/Sao_Paulo&recur=RRULE:" ++ Popup.googleRrule ev) ∧
    (∀ now : ℤ, Popup.getDayInitial ev.day ≠ "" →
      Popup.icsRrule ev (Popup.getDayInitial ev.day) ∈ Popup.icsEventLines now ev) := by
  refine ⟨?_, ?_, ?_, ?_⟩
  · intro e he
    have hb := endOfDay_bound e
    have hyr : jsGetFullYear (JsDate.jsSetHMS 23 59 59 e) = jsGetFullYear e := by
      unfold JsDate.jsGetFullYear; rw [hb.2]
    have hmo : jsGetMonth (JsDate.jsSetHMS 23 59 59 e) = jsGetMonth e := by
      unfold JsDate.jsGetMonth; rw [hb.2]
    have hda : jsGetDate (JsDate.jsSetHMS 23 59 59 e) = jsGetDate e := by
      unfold JsDate.jsGetDate; rw [hb.2]
    have hhr : jsGetHours (JsDate.jsSetHMS 23 59 59 e) = 23 := by
      rw [jsSetHMS_endOfDay]; unfold JsDate.jsGetHours; omega
    have hmi : jsGetMinutes (JsDate.jsSetHMS 23 59 59 e) = 59 := by
      rw [jsSetHMS_endOfDay]; unfold JsDate.jsGetMinutes; omega
    have hse : jsGetSeconds (JsDate.jsSetHMS 23 59 59 e) = 59 := by
      rw [jsSetHMS_endOfDay]; unfold JsDate.jsGetSeconds; omega
    refine ⟨?_, ?_, hb.1, hb.2⟩
    · unfold Popup.googleRrule
      rw [he]
    · unfold Popup.icsRrule
      rw [he]
      dsimp only
      rw [hyr, hmo, hda, hhr, hmi, hse]
      rw [show pad2 23 = "23" from rfl, show pad2 59 = "59" from rfl]
      exact untilTail_fold _
  · intro he
    constructor
    · unfold Popup.googleRrule
      rw [he]
    · unfold Popup.icsRrule
      rw [he]
  · intro fd
    exact ⟨_, rfl⟩
  · intro now hne
    unfold Popup.icsEventLines
    rw [if_neg hne]
    simp

/-- Witness for C3 at concrete events: an end date of 1970-01-01 yields an
`UNTIL=19700101T235959Z` bound in both generators, and no end date yields
`COUNT=18` in both. -/
theorem recurrence_termination_witness :
    (Popup.googleRrule c3Event = "FREQ=WEEKLY;BYDAY=" ++ Popup.getDayInitial c3Event.day ++
        ";UNTIL=" ++ toString (jsGetFullYear 0) ++ pad2 (jsGetMonth 0 + 1) ++
        pad2 (jsGetDate 0) ++ "T235959Z" ∧
      Popup.icsRrule c3Event (Popup.getDayInitial c3Event.day) =
        "RRULE:FREQ=WEEKLY;BYDAY=" ++ Popup.getDayInitial c3Event.day ++
        ";UNTIL=" ++ toString (jsGetFullYear 0) ++ pad2 (jsGetMonth 0 + 1) ++
        pad2 (jsGetDate 0) ++ "T235959Z" ∧
      (0 : ℤ) ≤ JsDate.jsSetHMS 23 59 59 0 ∧
      JsDate.jsSetHMS 23 59 59 0 / 86400 = 0 / 86400) ∧
    (Popup.googleRrule c3EventNoEnd =
        "FREQ=WEEKLY;BYDAY=" ++ Popup.getDayInitial c3EventNoEnd.day ++ ";COUNT=18" ∧
      Popup.icsRrule c3EventNoEnd (Popup.getDayInitial c3EventNoEnd.day) =
        "RRULE:FREQ=WEEKLY;BYDAY=" ++ Popup.getDayInitial c3EventNoEnd.day ++ ";COUNT=18") ∧
    Popup.googleRrule c3Event = "FREQ=WEEKLY;BYDAY=MO;UNTIL=19700101T235959Z" ∧
    Popup.googleRrule c3EventNoEnd = "FREQ=WEEKLY;BYDAY=MO;COUNT=18" :=
  ⟨(recurrence_termination c3Event).1 0 rfl,
   (recurrence_termination c3EventNoEnd).2.1 rfl,
   by decide, by decide⟩

/-- Helper: a string with a non-empty prefix whose first character differs from
a target string's first character cannot equal the target. -/
theorem append_ne_of_head_ne (p s q : String)
    (h : p.data.head? ≠ q.data.head?) (hp : p.data ≠ []) : p ++ s ≠ q := by
  intro he
  apply h
  rw [← he, String.data_append]
  rcases hpd : p.data with _ | ⟨a, as⟩
  · exact absurd hpd hp
  · simp

/-- Helper: the `.ics` rule starts with its fixed `RRULE` prefix, so it differs
from any line whose first character is not `R`. -/
theorem icsRrule_ne (ev : Popup.Event) (di q : String)
    (hq : "RRULE:FREQ=WEEKLY;BYDAY=".data.head? ≠ q.data.head?) :
    Popup.icsRrule ev di ≠ q := by
  unfold Popup.icsRrule
  cases ev.endDate <;>
  · dsimp only
    simp only [String.append_assoc]
    exact append_ne_of_head_ne _ _ _ hq (by decide)

set_option maxRecDepth 8000 in
/-- Counterexample to C7: for the event with day "Seg" (no recurrence code) the
deep-link generator does not skip recurrence generation — it emits the URL with
an empty `BYDAY` in the embedded rule. -/
theorem googleLink_no_skip_counterexample :
    Popup.getDayInitial c7Event.day = "" ∧
    Popup.createGoogleCalendarLink c7Event 0 =
      "https://www.google.com/calendar/render?action=TEMPLATE&text=Calculo&dates=19700101T080000/19700101T100000&details=desc&location=&ctz=America/Sao_Paulo&recur=RRULE:FREQ=WEEKLY;BYDAY=;COUNT=18" ∧
    (∃ p : String, Popup.createGoogleCalendarLink c7Event 0 =
      p ++ "&ctz=America/Sao_Paulo&recur=RRULE:FREQ=WEEKLY;BYDAY=;COUNT=18") :=
  ⟨by decide, by decide,
   ⟨"https://www.google.com/calendar/render?action=TEMPLATE&text=Calculo&dates=19700101T080000/19700101T100000&details=desc&location=",
    by decide⟩⟩

/-- C7 (amended): weekday names with no recurrence code map to `""`; the
calendar-file generator skips such events entirely, while the deep-link
generator does not skip — it always embeds the weekly rule, splicing in the
(possibly empty) day code. -/
theorem getDayInitial_empty_skip :
    (∀ day : String, day ∉ Popup.daysMap → Popup.getDayInitial day = "") ∧
    (∀ (now : ℤ) (ev : Popup.Event), Popup.getDayInitial ev.day = "" →
      Popup.icsEventLines now ev = []) ∧
    (∀ (ev : Popup.Event) (fd : ℤ), ev.endDate = none →
      ∃ p : String, Popup.createGoogleCalendarLink ev fd =
        p ++ "&ctz=America/Sao_Paulo&recur=RRULE:FREQ=WEEKLY;BYDAY=" ++
          Popup.getDayInitial ev.day ++ ";COUNT=18") ∧
    (∀ (ev : Popup.Event) (fd : ℤ), ∃ p : String,
      Popup.createGoogleCalendarLink ev fd =
        p ++ "&ctz=America/Sao_Paulo&recur=RRULE:" ++ Popup.googleRrule ev) := by
  refine ⟨?_, ?_, ?_, ?_⟩
  · intro day hd
    simp only [Popup.daysMap, List.mem_cons, List.not_mem_nil, or_false, not_or] at hd
    obtain ⟨h1, h2, h3, h4, h5, h6, h7⟩ := hd
    simp [Popup.getDayInitial, h1, h2, h3, h4, h5, h6, h7]
  · intro now ev hd
    unfold Popup.icsEventLines
    rw [if_pos hd]
  · intro ev fd he
    refine ⟨"https://www.google.com/calendar/render?action=TEMPLATE" ++ "&text=" ++
      Popup.encodeURIComponent ev.title ++ "&dates=" ++
      Popup.formatDateTimeForCalendar fd ev.startTime ++ "/" ++
      Popup.formatDateTimeForCalendar fd ev.endTime ++ "&details=" ++
      Popup.encodeURIComponent ev.description ++ "&location=" ++
      Popup.encodeURIComponent ev.location, ?_⟩
    unfold Popup.createGoogleCalendarLink Popup.googleRrule
    rw [he]
    dsimp only
    rw [show ("&ctz=America/Sao_Paulo&recur=RRULE:FREQ=WEEKLY;BYDAY=" : String) =
      "&ctz=America/Sao_Paulo&recur=RRULE:" ++ "FREQ=WEEKLY;BYDAY=" from rfl]
    simp only [String.append_assoc]
  · intro ev fd
    exact ⟨_, rfl⟩

/-- Witness for C7 (amended) at the concrete event with day "Seg". -/
theorem getDayInitial_empty_skip_witness :
    ("Seg" ∉ Popup.daysMap ∧ Popup.getDayInitial "Seg" = "") ∧
    (Popup.getDayInitial c7Event.day = "" ∧ Popup.icsEventLines 0 c7Event = []) ∧
    (c7Event.endDate = none ∧
      ∃ p : String, Popup.createGoogleCalendarLink c7Event 0 =
        p ++ "&ctz=America/Sao_Paulo&recur=RRULE:FREQ=WEEKLY;BYDAY=" ++
          Popup.getDayInitial c7Event.day ++ ";COUNT=18") :=
  ⟨⟨by decide, getDayInitial_empty_skip.1 "Seg" (by decide)⟩,
   ⟨by decide, getDayInitial_empty_skip.2.1 0 c7Event (by decide)⟩,
   ⟨rfl, getDayInitial_empty_skip.2.2.1 c7Event 0 rfl⟩⟩

/-- Helper: `countEq` distributes over list append. -/
theorem countEq_append (m : String) (l1 l2 : List String) :
    countEq m (l1 ++ l2) = countEq m l1 + countEq m l2 := by
  induction l1 with
  | nil => simp [countEq]
  | cons x xs ih => simp [countEq, ih]; omega

/-- Helper: the export handler's per-event `forEach`/`push` loop produces the
header lines, then each event's lines in order, then the closing line. -/
theorem generateIcsLines_eq (now : ℤ) (events : List Popup.Event) :
    Popup.generateIcsLines now events =
      Popup.icsHeaderLines ++ (events.map (Popup.icsEventLines now)).flatten ++
        ["END:VCALENDAR"] := by
  unfold Popup.generateIcsLines
  congr 1
  suffices h : ∀ (l : List Popup.Event) (init : List String),
      l.foldl (fun acc ev => acc ++ Popup.icsEventLines now ev) init =
        init ++ (l.map (Popup.icsEventLines now)).flatten by
    exact h events Popup.icsHeaderLines
  intro l
  induction l with
  | nil => intro init; simp
  | cons ev evs ih =>
    intro init
    simp [List.foldl_cons, ih, List.flatten_cons, List.append_assoc]

/-- Helper: marker counts of the lines one event contributes to the `.ics` file:
one `BEGIN:VEVENT`/`END:VEVENT` pair when the event's weekday has a recurrence
code, nothing otherwise, and never a `VCALENDAR` marker. -/
theorem icsEventLines_counts (now : ℤ) (ev : Popup.Event) :
    countEq "BEGIN:VEVENT" (Popup.icsEventLines now ev) =
      (if Popup.getDayInitial ev.day = "" then 0 else 1) ∧
    countEq "END:VEVENT" (Popup.icsEventLines now ev) =
      (if Popup.getDayInitial ev.day = "" then 0 else 1) ∧
    countEq "BEGIN:VCALENDAR" (Popup.icsEventLines now ev) = 0 ∧
    countEq "END:VCALENDAR" (Popup.icsEventLines now ev) = 0 := by
  by_cases hd : Popup.getDayInitial ev.day = ""
  · unfold Popup.icsEventLines
    simp [hd, countEq]
  · have na1 : ∀ x : String, "DTSTART;TZID=America/Sao_Paulo:" ++ x ≠ "BEGIN:VEVENT" :=
      fun x => append_ne_of_head_ne _ _ _ (by decide) (by decide)
    have na2 : ∀ x : String, "DTSTART;TZID=America/Sao_Paulo:" ++ x ≠ "END:VEVENT" :=
      fun x => append_ne_of_head_ne _ _ _ (by decide) (by decide)
    have na3 : ∀ x : String, "DTSTART;TZID=America/Sao_Paulo:" ++ x ≠ "BEGIN:VCALENDAR" :=
      fun x => append_ne_of_head_ne _ _ _ (by decide) (by decide)
    have na4 : ∀ x : String, "DTSTART;TZID=America/Sao_Paulo:" ++ x ≠ "END:VCALENDAR" :=
      fun x => append_ne_of_head_ne _ _ _ (by decide) (by decide)
    have nb1 : ∀ x : String, "DTEND;TZID=America/Sao_Paulo:" ++ x ≠ "BEGIN:VEVENT" :=
      fun x => append_ne_of_head_ne _ _ _ (by decide) (by decide)
    have nb2 : ∀ x : String, "DTEND;TZID=America/Sao_Paulo:" ++ x ≠ "END:VEVENT" :=
      fun x => append_ne_of_head_ne _ _ _ (by decide) (by decide)
    have nb3 : ∀ x : String, "DTEND;TZID=America/Sao_Paulo:" ++ x ≠ "BEGIN:VCALENDAR" :=
      fun x => append_ne_of_head_ne _ _ _ (by decide) (by decide)
    have nb4 : ∀ x : String, "DTEND;TZID=America/Sao_Paulo:" ++ x ≠ "END:VCALENDAR" :=
      fun x => append_ne_of_head_ne _ _ _ (by decide) (by decide)
    have nc1 : ∀ x : String, "SUMMARY:" ++ x ≠ "BEGIN:VEVENT" :=
      fun x => append_ne_of_head_ne _ _ _ (by decide) (by decide)
    have nc2 : ∀ x : String, "SUMMARY:" ++ x ≠ "END:VEVENT" :=
      fun x => append_ne_of_head_ne _ _ _ (by decide) (by decide)
    have nc3 : ∀ x : String, "SUMMARY:" ++ x ≠ "BEGIN:VCALENDAR" :=
      fun x => append_ne_of_head_ne _ _ _ (by decide) (by decide)
    have nc4 : ∀ x : String, "SUMMARY:" ++ x ≠ "END:VCALENDAR" :=
      fun x => append_ne_of_head_ne _ _ _ (by decide) (by decide)
    have nd1 : ∀ x : String, "DESCRIPTION:" ++ x ≠ "BEGIN:VEVENT" :=
      fun x => append_ne_of_head_ne _ _ _ (by decide) (by decide)
    have nd2 : ∀ x : String, "DESCRIPTION:" ++ x ≠ "END:VEVENT" :=
      fun x => append_ne_of_head_ne _ _ _ (by decide) (by decide)
    have nd3 : ∀ x : String, "DESCRIPTION:" ++ x ≠ "BEGIN:VCALENDAR" :=
      fun x => append_ne_of_head_ne _ _ _ (by decide) (by decide)
    have nd4 : ∀ x : String, "DESCRIPTION:" ++ x ≠ "END:VCALENDAR" :=
      fun x => append_ne_of_head_ne _ _ _ (by decide) (by decide)
    have ne1 : ∀ x : String, "LOCATION:" ++ x ≠ "BEGIN:VEVENT" :=
      fun x => append_ne_of_head_ne _ _ _ (by decide) (by decide)
    have ne2 : ∀ x : String, "LOCATION:" ++ x ≠ "END:VEVENT" :=
      fun x => append_ne_of_head_ne _ _ _ (by decide) (by decide)
    have ne3 : ∀ x : String, "LOCATION:" ++ x ≠ "BEGIN:VCALENDAR" :=
      fun x => append_ne_of_head_ne _ _ _ (by decide) (by decide)
    have ne4 : ∀ x : String, "LOCATION:" ++ x ≠ "END:VCALENDAR" :=
      fun x => append_ne_of_head_ne _ _ _ (by decide) (by decide)
    have nr1 : Popup.icsRrule ev (Popup.getDayInitial ev.day) ≠ "BEGIN:VEVENT" :=
      icsRrule_ne ev _ _ (by decide)
    have nr2 : Popup.icsRrule ev (Popup.getDayInitial ev.day) ≠ "END:VEVENT" :=
      icsRrule_ne ev _ _ (by decide)
    have nr3 : Popup.icsRrule ev (Popup.getDayInitial ev.day) ≠ "BEGIN:VCALENDAR" :=
      icsRrule_ne ev _ _ (by decide)
    have nr4 : Popup.icsRrule ev (Popup.getDayInitial ev.day) ≠ "END:VCALENDAR" :=
      icsRrule_ne ev _ _ (by decide)
    have lit1 : ("BEGIN:VEVENT" : String) ≠ "END:VEVENT" := by decide
    have lit2 : ("BEGIN:VEVENT" : String) ≠ "BEGIN:VCALENDAR" := by decide
    have lit3 : ("BEGIN:VEVENT" : String) ≠ "END:VCALENDAR" := by decide
    have lit4 : ("END:VEVENT" : String) ≠ "BEGIN:VEVENT" := by decide
    have lit5 : ("END:VEVENT" : String) ≠ "BEGIN:VCALENDAR" := by decide
    have lit6 : ("END:VEVENT" : String) ≠ "END:VCALENDAR" := by decide
    unfold Popup.icsEventLines
    simp only [if_neg hd]
    simp [countEq, na1, na2, na3, na4, nb1, nb2, nb3, nb4, nc1, nc2, nc3, nc4,
      nd1, nd2, nd3, nd4, ne1, ne2, ne3, ne4, nr1, nr2, nr3, nr4,
      lit1, lit2, lit3, lit4, lit5, lit6]

/-- Helper: marker counts of the concatenated per-event line blocks. -/
theorem ics_flatten_counts (now : ℤ) (events : List Popup.Event) :
    countEq "BEGIN:VEVENT" ((events.map (Popup.icsEventLines now)).flatten) =
      (events.filter (fun e => !(Popup.getDayInitial e.day == ""))).length ∧
    countEq "END:VEVENT" ((events.map (Popup.icsEventLines now)).flatten) =
      (events.filter (fun e => !(Popup.getDayInitial e.day == ""))).length ∧
    countEq "BEGIN:VCALENDAR" ((events.map (Popup.icsEventLines now)).flatten) = 0 ∧
    countEq "END:VCALENDAR" ((events.map (Popup.icsEventLines now)).flatten) = 0 := by
  induction events with
  | nil => simp [countEq]
  | cons ev evs ih =>
    obtain ⟨e1, e2, e3, e4⟩ := icsEventLines_counts now ev
    obtain ⟨i1, i2, i3, i4⟩ := ih
    simp only [List.map_cons, List.flatten_cons, countEq_append, e1, e2, e3, e4,
      i1, i2, i3, i4, List.filter_cons]
    by_cases hd : Popup.getDayInitial ev.day = ""
    · simp [hd]
    · simp [hd]
      omega

/-- C6 (amended): for every non-empty extracted-event list, the export produces
the joined line document with exactly one `BEGIN:VCALENDAR` and one
`END:VCALENDAR`, and exactly one `VEVENT` entry per event whose weekday has a
recurrence code (events with no code are skipped); for each event, whenever its
`"HH:MM"` times parse and the start time-of-day does not exceed the end
time-of-day, the entry's start instant is ≤ its end instant. -/
theorem ics_structure (now : ℤ) (events : List Popup.Event) (hne : events ≠ []) :
    Popup.generateIcs now events =
      some (String.intercalate "\r\n" (Popup.generateIcsLines now events)) ∧
    countEq "BEGIN:VCALENDAR" (Popup.generateIcsLines now events) = 1 ∧
    countEq "END:VCALENDAR" (Popup.generateIcsLines now events) = 1 ∧
    countEq "BEGIN:VEVENT" (Popup.generateIcsLines now events) =
      (events.filter (fun e => !(Popup.getDayInitial e.day == ""))).length ∧
    countEq "END:VEVENT" (Popup.generateIcsLines now events) =
      (events.filter (fun e => !(Popup.getDayInitial e.day == ""))).length ∧
    ∀ ev ∈ events, ∀ hs ms he me : ℤ,
      Popup.parsedTime ev.startTime = some (hs, ms) →
      Popup.parsedTime ev.endTime = some (he, me) →
      hs * 3600 + ms * 60 ≤ he * 3600 + me * 60 →
      Popup.calApplyTime (Popup.icsFirstClassDate now ev) hs ms ≤
        Popup.calApplyTime (Popup.icsFirstClassDate now ev) he me := by
  obtain ⟨f1, f2, f3, f4⟩ := ics_flatten_counts now events
  have hheadBC : countEq "BEGIN:VCALENDAR" Popup.icsHeaderLines = 1 := by decide
  have hheadEC : countEq "END:VCALENDAR" Popup.icsHeaderLines = 0 := by decide
  have hheadBE : countEq "BEGIN:VEVENT" Popup.icsHeaderLines = 0 := by decide
  have hheadEE : countEq "END:VEVENT" Popup.icsHeaderLines = 0 := by decide
  have hfootBC : countEq "BEGIN:VCALENDAR" ["END:VCALENDAR"] = 0 := by decide
  have hfootEC : countEq "END:VCALENDAR" ["END:VCALENDAR"] = 1 := by decide
  have hfootBE : countEq "BEGIN:VEVENT" ["END:VCALENDAR"] = 0 := by decide
  have hfootEE : countEq "END:VEVENT" ["END:VCALENDAR"] = 0 := by decide
  refine ⟨?_, ?_, ?_, ?_, ?_, ?_⟩
  · unfold Popup.generateIcs
    rw [if_neg (fun h => hne (List.length_eq_zero.mp h))]
  · rw [generateIcsLines_eq, countEq_append, countEq_append, f3, hheadBC, hfootBC]
  · rw [generateIcsLines_eq, countEq_append, countEq_append, f4, hheadEC, hfootEC]
  · rw [generateIcsLines_eq, countEq_append, countEq_append, f1, hheadBE, hfootBE]
    omega
  · rw [generateIcsLines_eq, countEq_append, countEq_append, f2, hheadEE, hfootEE]
    omega
  · intro ev _hev hs ms he me _hps _hpe hle
    rw [calApplyTime_eval, calApplyTime_eval]
    omega

set_option maxRecDepth 8000 in
/-- Counterexample to C6: a two-event list whose first event's weekday has no
recurrence code yields one `VEVENT` entry, not two; and the second event's
scraped end time precedes its start time, giving an entry with start > end. -/
theorem ics_miscount_counterexample :
    c6Events.length = 2 ∧
    countEq "BEGIN:VEVENT" (Popup.generateIcsLines 0 c6Events) = 1 ∧
    (1 : ℕ) ≠ 2 ∧
    Popup.parsedTime c6Ev2.startTime = some (10, 0) ∧
    Popup.parsedTime c6Ev2.endTime = some (8, 0) ∧
    Popup.formatDateTimeForCalendar (Popup.icsFirstClassDate 0 c6Ev2) c6Ev2.startTime =
      "19700105T100000" ∧
    Popup.formatDateTimeForCalendar (Popup.icsFirstClassDate 0 c6Ev2) c6Ev2.endTime =
      "19700105T080000" ∧
    Popup.calApplyTime (Popup.icsFirstClassDate 0 c6Ev2) 8 0 <
      Popup.calApplyTime (Popup.icsFirstClassDate 0 c6Ev2) 10 0 :=
  ⟨by decide, by decide, by decide, by decide, by decide, by decide, by decide, by decide⟩

set_option maxRecDepth 8000 in
/-- Witness for C6 (amended) at the concrete two-event list: one event has a
recurrence code, so the file has exactly one entry between its calendar markers. -/
theorem ics_structure_witness :
    (Popup.generateIcs 0 c6Events =
        some (String.intercalate "\r\n" (Popup.generateIcsLines 0 c6Events)) ∧
      countEq "BEGIN:VCALENDAR" (Popup.generateIcsLines 0 c6Events) = 1 ∧
      countEq "END:VCALENDAR" (Popup.generateIcsLines 0 c6Events) = 1 ∧
      countEq "BEGIN:VEVENT" (Popup.generateIcsLines 0 c6Events) =
        (c6Events.filter (fun e => !(Popup.getDayInitial e.day == ""))).length ∧
      countEq "END:VEVENT" (Popup.generateIcsLines 0 c6Events) =
        (c6Events.filter (fun e => !(Popup.getDayInitial e.day == ""))).length ∧
      ∀ ev ∈ c6Events, ∀ hs ms he me : ℤ,
        Popup.parsedTime ev.startTime = some (hs, ms) →
        Popup.parsedTime ev.endTime = some (he, me) →
        hs * 3600 + ms * 60 ≤ he * 3600 + me * 60 →
        Popup.calApplyTime (Popup.icsFirstClassDate 0 ev) hs ms ≤
          Popup.calApplyTime (Popup.icsFirstClassDate 0 ev) he me) ∧
    (c6Events.filter (fun e => !(Popup.getDayInitial e.day == ""))).length = 1 :=
  ⟨ics_structure 0 c6Events (by decide), by decide⟩

/-- Helper: when every header `th` after the first two has a `div`, the
`daysOfWeek` computation succeeds. -/
theorem headerDays_ok (l : List ContentA.Th) (h : ∀ th ∈ l, th.divText ≠ none) :
    ∃ ds : List String, ContentA.headerDays l = Except.ok ds := by
  induction l with
  | nil => exact ⟨[], rfl⟩
  | cons th rest ih =>
    obtain ⟨ds, hds⟩ := ih (fun x hx => h x (List.mem_cons_of_mem _ hx))
    rcases hth : th.divText with _ | txt
    · exact absurd hth (h th (List.mem_cons_self _ _))
    · refine ⟨ContentMaps.normalizeAbbrev (jsTrim txt) :: ds, ?_⟩
      unfold ContentA.headerDays
      rw [hth, hds]
      rfl

/-- C4 (amended): when the schedule table or its header container is absent the
scrape returns the failure result with an empty list without throwing; when both
exist, the data-row set is empty, and every header cell past the first two has
its inner `div`, the same failure result is returned.  (A header cell missing
its `div` instead throws before the zero-row check — see the counterexample.) -/
theorem extractA_failure (page : ContentA.Page) :
    ((page.hasTable = false ∨ page.hasHeader = false) →
      ContentA.extractSchedule page = Except.ok { success := false, data := [] }) ∧
    (page.hasTable = true → page.hasHeader = true → page.dataRows = [] →
      (∀ th ∈ page.headerThs.drop 2, th.divText ≠ none) →
      ContentA.extractSchedule page = Except.ok { success := false, data := [] }) := by
  constructor
  · intro h
    unfold ContentA.extractSchedule
    rcases h with h | h <;> rw [h] <;> simp
  · intro ht hh hrows hdivs
    obtain ⟨ds, hds⟩ := headerDays_ok _ hdivs
    unfold ContentA.extractSchedule
    rw [ht, hh, hds, hrows]
    simp

/-- Witness for C4: a page with no table fails cleanly, and a well-formed page
with zero data rows fails cleanly. -/
theorem extractA_failure_witness :
    (c4PageNoTable.hasTable = false ∨ c4PageNoTable.hasHeader = false) ∧
    ContentA.extractSchedule c4PageNoTable =
      Except.ok { success := false, data := [] } ∧
    c4PageEmptyRows.dataRows = [] ∧
    ContentA.extractSchedule c4PageEmptyRows =
      Except.ok { success := false, data := [] } :=
  ⟨Or.inl rfl,
   (extractA_failure c4PageNoTable).1 (Or.inl rfl),
   rfl,
   (extractA_failure c4PageEmptyRows).2 rfl rfl rfl (by decide)⟩

/-- Counterexample to C4: on a page whose table and header exist, whose third
header `th` lacks its inner `div`, and whose data-row set is empty, the scrape
throws (`null.innerText`) before the zero-row check instead of returning the
failure result. -/
theorem extractA_throws_counterexample :
    c4Page.hasTable = true ∧ c4Page.hasHeader = true ∧ c4Page.dataRows = [] ∧
    ContentA.extractSchedule c4Page = Except.error () ∧
    ContentA.extractSchedule c4Page ≠
      Except.ok { success := false, data := [] } :=
  ⟨rfl, rfl, rfl, by decide, by decide⟩

/-- Helper: pushing through the duplicate check preserves key-distinctness. -/
theorem dedupPush_pairwise (acc : List ContentA.FinalEvent) (ev : ContentA.EventMid)
    (slot : ContentA.Slot)
    (h : List.Pairwise (fun a b : ContentA.FinalEvent =>
      ¬(a.title = b.title ∧ a.day = b.day ∧ a.startTime = b.startTime)) acc) :
    List.Pairwise (fun a b : ContentA.FinalEvent =>
      ¬(a.title = b.title ∧ a.day = b.day ∧ a.startTime = b.startTime))
      (ContentA.dedupPush acc ev slot) := by
  unfold ContentA.dedupPush
  split
  · exact h
  · rename_i hany
    rw [List.pairwise_append]
    refine ⟨h, List.pairwise_singleton _ _, ?_⟩
    intro a ha b hb
    simp only [List.mem_singleton] at hb
    subst hb
    intro hkey
    apply hany
    rw [List.any_eq_true]
    refine ⟨a, ha, ?_⟩
    simp only [ContentA.keyMatches, Bool.and_eq_true, beq_iff_eq]
    exact ⟨⟨hkey.1, hkey.2.1⟩, hkey.2.2⟩

/-- Helper: the inner slot loop preserves key-distinctness. -/
theorem foldl_dedupPush_pairwise (ev : ContentA.EventMid)
    (slots : List ContentA.Slot) (init : List ContentA.FinalEvent)
    (h : List.Pairwise (fun a b : ContentA.FinalEvent =>
      ¬(a.title = b.title ∧ a.day = b.day ∧ a.startTime = b.startTime)) init) :
    List.Pairwise (fun a b : ContentA.FinalEvent =>
      ¬(a.title = b.title ∧ a.day = b.day ∧ a.startTime = b.startTime))
      (slots.foldl (fun acc slot => ContentA.dedupPush acc ev slot) init) := by
  induction slots generalizing init with
  | nil => exact h
  | cons s ss ih => exact ih _ (dedupPush_pairwise _ _ _ h)

/-- Helper: the flattening pass of content.js always yields a key-distinct list. -/
theorem assemble_pairwise (events : List ContentA.EventMid) :
    List.Pairwise (fun a b : ContentA.FinalEvent =>
      ¬(a.title = b.title ∧ a.day = b.day ∧ a.startTime = b.startTime))
      (ContentA.assemble events) := by
  unfold ContentA.assemble
  suffices h : ∀ (l : List ContentA.EventMid) (init : List ContentA.FinalEvent),
      List.Pairwise (fun a b : ContentA.FinalEvent =>
        ¬(a.title = b.title ∧ a.day = b.day ∧ a.startTime = b.startTime)) init →
      List.Pairwise (fun a b : ContentA.FinalEvent =>
        ¬(a.title = b.title ∧ a.day = b.day ∧ a.startTime = b.startTime))
        (l.foldl (fun acc ev =>
          ev.schedule.foldl (fun acc2 slot => ContentA.dedupPush acc2 ev slot) acc) init) by
    exact h events [] List.Pairwise.nil
  intro l
  induction l with
  | nil => intro init h; exact h
  | cons ev evs ih =>
    intro init h
    exact ih _ (foldl_dedupPush_pairwise _ _ _ h)

/-- C1 (amended): every successful content.js extraction returns a list in which
no two events share the same (title, day, startTime) triple — the deduplication
pass enforces the invariant.  (The part_006 variant performs no deduplication;
see the counterexample.) -/
theorem extractA_dedup (page : ContentA.Page) (r : ContentA.ExtractResult)
    (h : ContentA.extractSchedule page = Except.ok r) (hs : r.success = true) :
    List.Pairwise (fun a b : ContentA.FinalEvent =>
      ¬(a.title = b.title ∧ a.day = b.day ∧ a.startTime = b.startTime)) r.data := by
  unfold ContentA.extractSchedule at h
  split at h
  · cases h
    exact List.Pairwise.nil
  · split at h
    · cases h
    · split at h
      · cases h
        exact List.Pairwise.nil
      · dsimp only at h
        cases h
        exact assemble_pairwise _

/-- Witness for C1 at a concrete page: the extraction succeeds and the returned
list is key-distinct. -/
theorem extractA_dedup_witness :
    List.Pairwise (fun a b : ContentA.FinalEvent =>
      ¬(a.title = b.title ∧ a.day = b.day ∧ a.startTime = b.startTime))
      c1WitResult.data ∧
    ContentA.extractSchedule c1WitPage = Except.ok c1WitResult ∧
    c1WitResult.success = true :=
  ⟨extractA_dedup c1WitPage c1WitResult (by decide) rfl, by decide, rfl⟩

/-- Counterexample to C1: the part_006 variant returns, on a page with two rows
sharing the start time 08:00, two events with identical (title, day, startTime);
no deduplication is performed before the list is returned. -/
theorem extractB_duplicate_counterexample :
    ContentB.extractSchedule c1DupPage =
      Except.ok { success := true, data := [c1DupEv1, c1DupEv2] } ∧
    c1DupEv1.title = c1DupEv2.title ∧ c1DupEv1.day = c1DupEv2.day ∧
    c1DupEv1.startTime = c1DupEv2.startTime ∧
    ¬ List.Pairwise (fun a b : ContentB.FinalEvent =>
        ¬(a.title = b.title ∧ a.day = b.day ∧ a.startTime = b.startTime))
      [c1DupEv1, c1DupEv2] := by
  refine ⟨by decide, rfl, rfl, rfl, ?_⟩
  intro hp
  rcases hp with _ | ⟨hrel, _⟩
  exact hrel c1DupEv2 (List.mem_singleton.mpr rfl) ⟨rfl, rfl, rfl⟩

/-- Counterexample to C5: in the content.js version the scenario's two returned
events carry no instructors field at all (reading `event.professors` yields
`undefined`), so the field does not equal the "not provided" placeholder. -/
theorem extractA_no_professors_counterexample :
    ContentA.extractSchedule c5PageA =
      Except.ok { success := true, data := [c5EvA1, c5EvA2] } ∧
    c5EvA1.professors = none ∧ c5EvA2.professors = none ∧
    (none : Option String) ≠ some "Não encontrado" ∧
    (none : Option String) ≠ some "Docente não informado" :=
  ⟨by decide, rfl, rfl, by decide, by decide⟩

/-- C5 (amended): the scenario yields exactly two events titled with the bare
course code, on Monday and Wednesday, in both extraction versions; the part_006
version's instructors field equals its "Docente não informado" placeholder,
while the content.js version carries its "Não encontrado" placeholder only
inside the description string (its event objects have no instructors field). -/
theorem extract_scenario_two_events :
    (ContentB.extractSchedule c5PageB =
        Except.ok { success := true, data := [c5EvB1, c5EvB2] } ∧
      c5EvB1.title = "MAC0110" ∧ c5EvB2.title = "MAC0110" ∧
      c5EvB1.day = some "Segunda-feira" ∧ c5EvB2.day = some "Quarta-feira" ∧
      c5EvB1.professors = "Docente não informado" ∧
      c5EvB2.professors = "Docente não informado") ∧
    (ContentA.extractSchedule c5PageA =
        Except.ok { success := true, data := [c5EvA1, c5EvA2] } ∧
      c5EvA1.title = "MAC0110" ∧ c5EvA2.title = "MAC0110" ∧
      c5EvA1.day = some "Segunda-feira" ∧ c5EvA2.day = some "Quarta-feira" ∧
      c5EvA1.description =
        "Disciplina: MAC0110\nDocente(s) Responsável(eis): Não encontrado" ∧
      c5EvA2.description =
        "Disciplina: MAC0110\nDocente(s) Responsável(eis): Não encontrado") :=
  ⟨⟨by decide, rfl, rfl, rfl, rfl, rfl, rfl⟩,
   ⟨by decide, rfl, rfl, rfl, rfl, rfl, rfl⟩⟩

end Theorems
